import Mathlib

/-!
Shallow embedding of the KrushiBheru Field Health Analysis & Advisory Engine
(`KrushiBheru_Backend/KrushiBheru/model/analysis.py`, class `FieldAnalyzer`),
together with the theorems that settle the frozen claims about it.

Python floats are modelled as rationals (`ℚ`); nullable SQL columns as
`Option`; Python dictionaries either as structures (for bundles whose key set
is fixed by construction) or as `String → Option ℚ` (where the code uses
`dict.get` with defaults); the three external remote-sensing/weather sources
as explicit success/failure outcomes, a raised exception or timeout being the
`failure` constructor.
-/

namespace KrushiBheru

/-- Outcome of one call to an external source: either a payload of type `α`
or a raised exception / timeout / malformed response, which the Python code
catches with `except Exception`. -/
inductive SourceOutcome (α : Type) where
  | ok (payload : α)
  | failure
  deriving DecidableEq

/-- Result bundle of `FieldAnalyzer.fetch_ndvi_data` (the `image` key of the
success path is presentation-only and not carried by the embedding). -/
structure NdviData where
  ndvi_mean : ℚ
  ndvi_max : ℚ
  ndvi_min : ℚ
  cloud_coverage : ℚ
  valid_pixels : ℤ
  deriving DecidableEq

/-- Result bundle of `FieldAnalyzer.fetch_weather_data`. -/
structure WeatherData where
  temp_mean : ℚ
  rainfall_total : ℚ
  humidity_mean : ℚ
  wind_speed_mean : ℚ
  deriving DecidableEq

/-- The fused metrics dictionary built in `analyze_field`
(`{**ndvi_data, **weather_data, 'soil_moisture_est': ..., 'evi_mean': 0.0}`). -/
structure Metrics where
  ndvi_mean : ℚ
  ndvi_max : ℚ
  ndvi_min : ℚ
  cloud_coverage : ℚ
  valid_pixels : ℤ
  temp_mean : ℚ
  rainfall_total : ℚ
  humidity_mean : ℚ
  wind_speed_mean : ℚ
  soil_moisture_est : ℚ
  evi_mean : ℚ
  deriving DecidableEq

/-- One advisory as produced by `generate_state_specific_advisories`:
a `level`/`text` pair. -/
structure AdvisoryMsg where
  level : String
  text : String
  deriving DecidableEq

/-- One disease definition of `state_specific_data[...]['diseases']`: an
arbitrary subset of the five condition kinds may be configured. -/
structure DiseaseCond where
  ndvi_threshold : Option ℚ
  humidity_threshold : Option ℚ
  temp_range : Option (ℚ × ℚ)
  rainfall_threshold : Option ℚ
  soil_moisture_threshold : Option ℚ
  deriving DecidableEq

/-- One entry of `FieldAnalyzer.state_specific_data`. Diseases are kept in
Python dict insertion order. -/
structure StateData where
  pest_threshold : ℚ
  diseases : List (String × DiseaseCond)
  advisory_base : String
  deriving DecidableEq

/-- One entry of `FieldAnalyzer.crop_thresholds`. -/
structure CropData where
  optimal_ndvi : ℚ × ℚ
  temp_range : ℚ × ℚ
  moisture_range : ℚ × ℚ
  deriving DecidableEq

/-- The `'Gujarat'` entry of `state_specific_data` (analysis.py lines 23-30).
`DiseaseCond` fields are in the order ndvi, humidity, temp range, rainfall,
soil moisture; an absent dict key is `none`. -/
def gujaratData : StateData :=
  ⟨0.4,
   [("Rice Blast", ⟨some 0.4, some 75.0, some (25, 35), some 10.0, none⟩),
    ("Bacterial Leaf Blight", ⟨some 0.45, some 80.0, none, some 15.0, none⟩)],
   "Check for \x7b\x7d due to high humidity in Gujarat."⟩

/-- The `'Maharashtra'` entry of `state_specific_data` (analysis.py lines 31-38). -/
def maharashtraData : StateData :=
  ⟨0.45,
   [("Powdery Mildew", ⟨some 0.45, some 70.0, some (20, 30), none, none⟩),
    ("Downy Mildew", ⟨some 0.5, some 85.0, none, some 15.0, none⟩)],
   "Monitor \x7b\x7d in Maharashtra, especially during monsoon."⟩

/-- The `'Rajasthan'` entry of `state_specific_data` (analysis.py lines 39-46). -/
def rajasthanData : StateData :=
  ⟨0.35,
   [("Wilt", ⟨some 0.35, none, some (30, 40), none, some 0.3⟩),
    ("Root Rot", ⟨some 0.4, none, none, some 20.0, none⟩)],
   "Watch for \x7b\x7d in dry Rajasthan conditions."⟩

/-- The `'Punjab'` entry of `state_specific_data` (analysis.py lines 47-54). -/
def punjabData : StateData :=
  ⟨0.5,
   [("Yellow Rust", ⟨some 0.5, some 60.0, some (10, 25), none, none⟩),
    ("Karnal Bunt", ⟨some 0.45, none, none, some 10.0, none⟩)],
   "Inspect for \x7b\x7d in Punjab wheat fields."⟩

/-- `FieldAnalyzer.state_specific_data` (analysis.py lines 22-55), as a lookup
from region key to profile; absent keys map to `none` like a missing dict key. -/
def state_specific_data : String → Option StateData := fun s =>
  if s = "Gujarat" then some gujaratData
  else if s = "Maharashtra" then some maharashtraData
  else if s = "Rajasthan" then some rajasthanData
  else if s = "Punjab" then some punjabData
  else none

/-- `FieldAnalyzer.crop_thresholds` (analysis.py lines 56-62). -/
def crop_thresholds : String → Option CropData := fun c =>
  if c = "wheat" then some ⟨(0.6, 0.85), (15, 30), (0.3, 0.7)⟩
  else if c = "rice" then some ⟨(0.65, 0.9), (20, 35), (0.5, 0.8)⟩
  else if c = "cotton" then some ⟨(0.55, 0.85), (20, 35), (0.4, 0.7)⟩
  else if c = "sugarcane" then some ⟨(0.7, 0.95), (25, 35), (0.5, 0.8)⟩
  else if c = "maize" then some ⟨(0.6, 0.9), (20, 30), (0.4, 0.7)⟩
  else none

/-- The pest threshold that `determine_health_status` looks up:
`self.state_specific_data.get(state, {'pest_threshold': 0.5})['pest_threshold']`. -/
def pestThresholdOf (state : String) : ℚ :=
  match state_specific_data state with
  | some d => d.pest_threshold
  | none => 0.5

/-- `FieldAnalyzer.determine_health_status` (analysis.py lines 208-217). -/
def determine_health_status (ndvi : ℚ) (state : String) : String :=
  if ndvi > 0.7 then "Excellent"
  else if ndvi > pestThresholdOf state then "Good"
  else if ndvi > 0.3 then "Moderate"
  else "Poor"

/-- Ordinal rank of a health category, Poor < Moderate < Good < Excellent.
(Claim-side notion used to state monotonicity; not part of the source.) -/
def healthRank (s : String) : ℕ :=
  if s = "Excellent" then 3
  else if s = "Good" then 2
  else if s = "Moderate" then 1
  else 0

/-- A trained regression model, abstracted to its prediction function over
the five-feature vector [temp, rainfall, humidity, wind, soil moisture].
The `RandomForestRegressor` fit itself is an external library call; theorems
quantify over the fitting function. -/
structure TrendModel where
  predictFn : ℚ → ℚ → ℚ → ℚ → ℚ → ℚ

/-- `np.clip(x, lo, hi)`, i.e. `min (max x lo) hi`, spelled with explicit
conditionals. -/
def clip (x lo hi : ℚ) : ℚ :=
  let m := if x ≤ lo then lo else x
  if m ≤ hi then m else hi

/-- `FieldAnalyzer.predict_health_trend` (analysis.py lines 75-86). The
metrics dictionary is modelled as a partial map so that the `dict.get`
defaults for missing features are kept. -/
def predict_health_trend (model : Option TrendModel)
    (metrics : String → Option ℚ) : ℚ :=
  match model with
  | none => (metrics "ndvi_mean").getD 0.5
  | some md =>
    clip (md.predictFn ((metrics "temp_mean").getD 25.0)
      ((metrics "rainfall_total").getD 0.0) ((metrics "humidity_mean").getD 50.0)
      ((metrics "wind_speed_mean").getD 2.0) ((metrics "soil_moisture_est").getD 0.3))
      0.1 0.95

/-- The dictionary view of the fused metrics bundle, as spread in
`analyze_field` (lines 311-316). -/
def Metrics.toDict (m : Metrics) : String → Option ℚ := fun k =>
  if k = "ndvi_mean" then some m.ndvi_mean
  else if k = "ndvi_max" then some m.ndvi_max
  else if k = "ndvi_min" then some m.ndvi_min
  else if k = "cloud_coverage" then some m.cloud_coverage
  else if k = "valid_pixels" then some (m.valid_pixels : ℚ)
  else if k = "temp_mean" then some m.temp_mean
  else if k = "rainfall_total" then some m.rainfall_total
  else if k = "humidity_mean" then some m.humidity_mean
  else if k = "wind_speed_mean" then some m.wind_speed_mean
  else if k = "soil_moisture_est" then some m.soil_moisture_est
  else if k = "evi_mean" then some m.evi_mean
  else none

/-- One history entry as produced by `get_field_history` (lines 372-381). -/
structure HistEntry where
  date : ℤ
  ndvi_mean : ℚ
  temp_mean : ℚ
  rainfall_total : ℚ
  humidity_mean : ℚ
  wind_speed : ℚ
  soil_moisture_est : ℚ
  health_status : String
  deriving DecidableEq

/-- `FieldAnalyzer.train_health_model` (analysis.py lines 64-73), acting on
the analyzer's single `health_model` attribute: with fewer than 5 history
entries it returns early, leaving the current model in place; otherwise it
fits a fresh model on this history. `fit` abstracts
`RandomForestRegressor(...).fit` on the feature/target arrays drawn from the
history. -/
def train_health_model (fit : List HistEntry → TrendModel)
    (history : List HistEntry) (current : Option TrendModel) : Option TrendModel :=
  if history.length < 5 then current else some (fit history)

/-- Substring occurrence on character lists (Python `needle in hay`). -/
def listContainsSub (needle : List Char) : List Char → Bool
  | [] => needle.isEmpty
  | c :: rest => needle.isPrefixOf (c :: rest) || listContainsSub needle rest

/-- Python `needle in hay` on strings. -/
def strContains (hay needle : String) : Bool :=
  listContainsSub needle.toList hay.toList

/-- Python `template.format(arg)` for the advisory templates; each template
contains the placeholder exactly once, so replace-all is replace-first. -/
def pyFormat (template arg : String) : String :=
  template.replace "\x7b\x7d" arg

/-- Decimal rendering of a non-negative rational with at most two decimal
places, matching Python's float repr on the registry's pest thresholds
(used by the f-string of line 230). -/
def decStr (q : ℚ) : String :=
  let n : ℤ := ⌊q * 100⌋
  let whole : ℤ := n / 100
  let cents : ℕ := (n % 100).toNat
  toString whole ++ "." ++
    (if cents % 10 = 0 then toString (cents / 10)
     else (if cents < 10 then "0" else "") ++ toString cents)

/-- The critical "check sensors" advisory of lines 292-295. -/
def checkSensorsAdv : AdvisoryMsg := ⟨"critical", "Check sensors for invalid data."⟩

/-- The per-disease risk flag of `generate_state_specific_advisories` (lines
233-243): each configured condition may set `risk = True`; absent keys are
not evaluated. -/
def diseaseRisk (c : DiseaseCond) (m : Metrics) : Bool :=
  (match c.ndvi_threshold with
   | some t => decide (m.ndvi_mean < t) | none => false) ||
  (match c.humidity_threshold with
   | some t => decide (m.humidity_mean > t) | none => false) ||
  (match c.temp_range with
   | some r => !(decide (r.1 ≤ m.temp_mean ∧ m.temp_mean ≤ r.2)) | none => false) ||
  (match c.rainfall_threshold with
   | some t => decide (m.rainfall_total > t) | none => false) ||
  (match c.soil_moisture_threshold with
   | some t => decide (m.soil_moisture_est < t) | none => false)

/-- The advisory level of a firing disease (line 245):
`'critical' if 'threshold' in disease.lower() else 'warning'`. -/
def diseaseLevel (disease : String) : String :=
  if strContains disease.toLower "threshold" then "critical" else "warning"

/-- The advisory a firing disease appends (lines 246-249). -/
def mkDiseaseAdvisory (sd : StateData) (disease : String) : AdvisoryMsg :=
  ⟨diseaseLevel disease, pyFormat sd.advisory_base disease⟩

/-- The disease loop of `generate_state_specific_advisories` (lines 232-249),
in dict insertion order. -/
def diseaseAdvisories (sd : StateData) (m : Metrics) : List AdvisoryMsg :=
  sd.diseases.flatMap
    (fun dc => if diseaseRisk dc.2 m then [mkDiseaseAdvisory sd dc.1] else [])

/-- The region layer (lines 226-249): the pest-risk warning, then the disease
loop; an unknown region key yields the empty (falsy) profile dict and the
whole layer is skipped. -/
def stateAdvisories (state : String) (m : Metrics) : List AdvisoryMsg :=
  match state_specific_data state with
  | none => []
  | some sd =>
    (if m.ndvi_mean < sd.pest_threshold then
       [⟨"warning", "Pest risk high. NDVI below " ++ decStr sd.pest_threshold ++ "."⟩]
     else []) ++ diseaseAdvisories sd m

/-- The crop layer (lines 252-272). -/
def cropAdvisories (crop_type : String) (m : Metrics) : List AdvisoryMsg :=
  match crop_thresholds crop_type with
  | none => []
  | some cd =>
    (if m.ndvi_mean < cd.optimal_ndvi.1 then
       [⟨"critical", "NDVI low for " ++ crop_type ++ ". Check nutrients/pests."⟩]
     else []) ++
    (if ¬(cd.temp_range.1 ≤ m.temp_mean ∧ m.temp_mean ≤ cd.temp_range.2) then
       [⟨"warning", "Temperature out of range for " ++ crop_type ++ "."⟩]
     else []) ++
    (if m.soil_moisture_est < cd.moisture_range.1 then
       [⟨"critical", "Irrigate: Soil moisture low for " ++ crop_type ++ "."⟩]
     else if m.soil_moisture_est > cd.moisture_range.2 then
       [⟨"warning", "Check drainage: Soil moisture high for " ++ crop_type ++ "."⟩]
     else [])

/-- The global sanity layer (lines 275-295). The `isinstance` conjuncts of the
sensor check are identically true in this embedding, where the metric values
are rationals. -/
def generalAdvisories (m : Metrics) : List AdvisoryMsg :=
  (if m.soil_moisture_est < 0.15 then
     [⟨"critical", "Irrigate immediately to raise soil moisture above 15%."⟩]
   else if m.soil_moisture_est > 0.7 then
     [⟨"warning", "Reduce irrigation to lower soil moisture below 70%."⟩]
   else []) ++
  (if m.temp_mean > 30 then
     [⟨"warning", "Implement shading or cooling measures for heat stress."⟩]
   else []) ++
  (if ¬(0 ≤ m.soil_moisture_est ∧ m.soil_moisture_est ≤ 1 ∧
        0 ≤ m.temp_mean ∧ m.temp_mean ≤ 50) then [checkSensorsAdv] else [])

/-- One row of the `field` table, restricted to the columns `analyze_field`
reads or writes. Nullable float columns are `Option ℚ`; `boundary` is the
non-nullable GeoJSON text. -/
structure FieldRow where
  field_id : ℕ
  boundary : String
  latitude : Option ℚ
  longitude : Option ℚ
  state : String
  crop_type : String
  soil_moisture : Option ℚ
  temperature : Option ℚ
  status : Option String
  deriving DecidableEq

/-- `FieldAnalyzer.generate_state_specific_advisories` (lines 219-297): the
region layer, the crop layer and the global sanity layer appended in
evaluation order. -/
def generate_state_specific_advisories (field : FieldRow) (m : Metrics) :
    List AdvisoryMsg :=
  stateAdvisories field.state m ++ cropAdvisories field.crop_type m ++
    generalAdvisories m

/-- Claim-side reading of disjunctive disease risk: at least one configured
condition holds. -/
def DiseaseRiskSpec (c : DiseaseCond) (m : Metrics) : Prop :=
  (∃ t, c.ndvi_threshold = some t ∧ m.ndvi_mean < t) ∨
  (∃ t, c.humidity_threshold = some t ∧ m.humidity_mean > t) ∨
  (∃ r, c.temp_range = some r ∧ ¬(r.1 ≤ m.temp_mean ∧ m.temp_mean ≤ r.2)) ∨
  (∃ t, c.rainfall_threshold = some t ∧ m.rainfall_total > t) ∨
  (∃ t, c.soil_moisture_threshold = some t ∧ m.soil_moisture_est < t)

/-- `np.mean` on a list of rationals. Every use below guards nonemptiness the
way the source does, so the `ℚ` division-by-zero convention is never hit. -/
def listMean (l : List ℚ) : ℚ := l.sum / l.length

/-- `FieldAnalyzer.fetch_ndvi_data` (analysis.py lines 98-142). The source
payload is the 512x512 pixel grid flattened, `none` marking the NaN pixels the
evalscript emits for clouds; `failure` is any raised exception or timeout,
caught by the `except Exception` handler. -/
def fetch_ndvi_data (o : SourceOutcome (List (Option ℚ))) : NdviData :=
  match o with
  | .failure => ⟨0.5, 0.6, 0.4, 0, 1000⟩
  | .ok data =>
    match data.filterMap id with
    | [] => ⟨0.5, 0.6, 0.4, 0, 0⟩
    | x :: xs =>
      ⟨listMean (x :: xs), xs.foldl max x, xs.foldl min x,
       ((data.filter (fun p => p = some 0)).length : ℚ) / (data.length : ℚ) * 100,
       (x :: xs).length⟩

/-- `FieldAnalyzer.fetch_soil_moisture` (analysis.py lines 144-174). -/
def fetch_soil_moisture (o : SourceOutcome (List (Option ℚ))) : ℚ :=
  match o with
  | .failure => 0.3
  | .ok data =>
    match data.filterMap id with
    | [] => 0.3
    | x :: xs => listMean (x :: xs)

/-- Successful NASA POWER response: one list of daily values per parameter. -/
structure WeatherRaw where
  t2m : List ℚ
  prectotcorr : List ℚ
  rh2m : List ℚ
  ws2m : List ℚ

/-- `FieldAnalyzer.fetch_weather_data` (analysis.py lines 176-206). -/
def fetch_weather_data (o : SourceOutcome WeatherRaw) : WeatherData :=
  match o with
  | .failure => ⟨25.0, 0.0, 50.0, 2.0⟩
  | .ok w => ⟨listMean w.t2m, w.prectotcorr.sum, listMean w.rh2m, listMean w.ws2m⟩

/-- The metrics fusion of `analyze_field` (lines 311-316):
`{**ndvi_data, **weather_data, 'soil_moisture_est': soil_moisture, 'evi_mean': 0.0}`. -/
def mkMetrics (n : NdviData) (w : WeatherData) (sm : ℚ) : Metrics :=
  ⟨n.ndvi_mean, n.ndvi_max, n.ndvi_min, n.cloud_coverage, n.valid_pixels,
   w.temp_mean, w.rainfall_total, w.humidity_mean, w.wind_speed_mean, sm, 0⟩

/-- The acquisition phase of `analyze_field` (lines 308-316): the three
sources are fetched independently for the same bounding box and time window;
`o1`, `o2`, `o3` are the outcomes of the Sentinel-2, Sentinel-1 and NASA
POWER calls respectively. -/
def acquisition (o1 o2 : SourceOutcome (List (Option ℚ)))
    (o3 : SourceOutcome WeatherRaw) : Metrics :=
  mkMetrics (fetch_ndvi_data o1) (fetch_weather_data o3) (fetch_soil_moisture o2)

/-- One row of `satellite_metrics` (models.py lines 47-70), restricted to the
columns the analyzer reads or writes; dates are day numbers. -/
structure SampleRow where
  metric_id : ℕ
  field_id : ℕ
  date : ℤ
  ndvi_mean : ℚ
  ndvi_max : ℚ
  ndvi_min : ℚ
  evi_mean : ℚ
  temp_mean : ℚ
  rainfall_total : ℚ
  humidity_mean : ℚ
  wind_speed : ℚ
  cloud_coverage : ℚ
  soil_moisture_est : ℚ
  valid_pixels : ℤ
  deriving DecidableEq

/-- One row of the `advisory` table (models.py lines 72-85), restricted to
the columns `analyze_field` writes. -/
structure AdvRow where
  field_id : ℕ
  metric_id : ℕ
  advisory_type : String
  advisory_text : String
  alert_level : String
  priority : ℕ
  deriving DecidableEq

/-- The persisted store. Lists are in insertion order, which is the order the
(ORDER BY-free) SQLAlchemy queries of the source return rows in. -/
structure DBState where
  fields : List FieldRow
  samples : List SampleRow
  advisories : List AdvRow
  deriving DecidableEq

/-- Autoincrement for `metric_id`. -/
def nextMetricId (db : DBState) : ℕ :=
  (db.samples.map (fun s => s.metric_id)).foldr max 0 + 1

/-- `Field.query.get(field_id)`. -/
def findField (db : DBState) (field_id : ℕ) : Option FieldRow :=
  db.fields.find? (fun f => f.field_id = field_id)

/-- The region key `get_field_history` re-reads on every entry:
`Field.query.get(field_id).state`. A missing field would raise
`AttributeError` in the source; the empty key stands in for that unreachable
case. -/
def currentStateOf (db : DBState) (field_id : ℕ) : String :=
  match findField db field_id with
  | some f => f.state
  | none => ""

/-- The history entry `get_field_history` builds from one stored sample
(lines 372-381): the sample's metrics plus a health category freshly
computed from the sample's index mean and the field's current region key. -/
def annotateSample (db : DBState) (field_id : ℕ) (s : SampleRow) : HistEntry :=
  ⟨s.date, s.ndvi_mean, s.temp_mean, s.rainfall_total, s.humidity_mean,
   s.wind_speed, s.soil_moisture_est,
   determine_health_status s.ndvi_mean (currentStateOf db field_id)⟩

/-- `FieldAnalyzer.get_field_history` (analysis.py lines 366-382): the
samples of the field whose date is on or after `today - days`, in query
order, each annotated by `annotateSample`. -/
def get_field_history (db : DBState) (field_id : ℕ) (today days : ℤ) :
    List HistEntry :=
  let from_date := today - days
  (db.samples.filter fun s =>
    decide (s.field_id = field_id ∧ from_date ≤ s.date)).map
    (annotateSample db field_id)

/-- Python truthiness of a nullable float column: `None` and `0.0` are falsy. -/
def falsyOptQ : Option ℚ → Bool
  | none => true
  | some q => decide (q = 0)

/-- The exceptions `analyze_field` can surface: `ValueError` (the geometry
guard of lines 301-303, and the `json`/empty-coordinate errors of
`get_bbox_from_boundary`, which are `ValueError` subclasses) or a store
write failure. -/
inductive AnalysisErr where
  | valueError
  | persistError
  deriving DecidableEq

/-- Which of the three `db.session.commit()` calls of one run succeed. -/
structure CommitSched where
  commitSample : Bool
  commitField : Bool
  commitAdvisories : Bool
  deriving DecidableEq

/-- Outcome of the persistence phase: the store afterwards, tagged by whether
the run raised out of a failed commit. -/
inductive PersistOutcome where
  | ok (db : DBState)
  | failed (db : DBState)
  deriving DecidableEq

/-- The `SatelliteMetrics` row built at lines 321-336
(`data_source='Sentinel/NASA'` is a constant tag and not carried). -/
def mkSampleRow (db : DBState) (field_id : ℕ) (today : ℤ) (m : Metrics) :
    SampleRow :=
  ⟨nextMetricId db, field_id, today, m.ndvi_mean, m.ndvi_max, m.ndvi_min,
   m.evi_mean, m.temp_mean, m.rainfall_total, m.humidity_mean,
   m.wind_speed_mean, m.cloud_coverage, m.soil_moisture_est, m.valid_pixels⟩

/-- The `Advisory` row built for one advisory at lines 345-354. -/
def mkAdvRow (field_id metric_id : ℕ) (adv : AdvisoryMsg) : AdvRow :=
  ⟨field_id, metric_id, "General", adv.text, adv.level.toUpper,
   if adv.level = "critical" then 1 else 2⟩

/-- The field-cache update of lines 340-342. -/
def updateFieldCache (db : DBState) (field_id : ℕ) (m : Metrics)
    (health : String) : DBState :=
  { db with fields := db.fields.map fun f =>
      if f.field_id = field_id then
        { f with soil_moisture := some m.soil_moisture_est, temperature := some m.temp_mean, status := some health }
      else f }

/-- The persistence phase of `analyze_field` (lines 321-355): three separate
commits — the sample row, the field-cache update, the advisory rows. A
failing commit discards only that commit's pending writes and raises; there
is no surrounding rollback of the earlier commits of the run. -/
def persistRun (db0 : DBState) (field_id : ℕ) (today : ℤ) (m : Metrics)
    (health : String) (advisories : List AdvisoryMsg) (sched : CommitSched) :
    PersistOutcome :=
  if ¬sched.commitSample then .failed db0 else
  let sample := mkSampleRow db0 field_id today m
  let db1 : DBState := { db0 with samples := db0.samples ++ [sample] }
  if ¬sched.commitField then .failed db1 else
  let db2 := updateFieldCache db1 field_id m health
  if ¬sched.commitAdvisories then .failed db2 else
  .ok { db2 with advisories :=
          db2.advisories ++ advisories.map (mkAdvRow field_id sample.metric_id) }

/-- The result dictionary of a successful `analyze_field` run (lines
357-364); `success: True` is implicit in the `Except.ok` constructor. -/
structure AnalysisResult where
  field_id : ℕ
  metrics : Metrics
  advisories : List AdvisoryMsg
  health_status : String
  predicted_ndvi : ℚ
  deriving DecidableEq

/-- `FieldAnalyzer.analyze_field` (analysis.py lines 299-364), parameterised
by the behaviours the run does not control: `parse` abstracts `json.loads`
plus coordinate extraction in `get_bbox_from_boundary` (`none` when the
boundary text is malformed or has no coordinates, which the source turns
into a raised `ValueError`); `fit` abstracts the RandomForest fit; `o1`,
`o2`, `o3` are the three source outcomes for this run's bounding box and
time window; `sched` the commit outcomes; `today` the current date. Returns
the surfaced result or exception, the store afterwards, and the analyzer's
shared `health_model` attribute afterwards. -/
def analyze_field (parse : String → Option (List (ℚ × ℚ)))
    (fit : List HistEntry → TrendModel)
    (o1 o2 : SourceOutcome (List (Option ℚ))) (o3 : SourceOutcome WeatherRaw)
    (sched : CommitSched) (db0 : DBState) (model0 : Option TrendModel)
    (field_id : ℕ) (today : ℤ) :
    Except AnalysisErr AnalysisResult × DBState × Option TrendModel :=
  match findField db0 field_id with
  | none => (.error .valueError, db0, model0)
  | some field =>
    if field.boundary = "" ∨ falsyOptQ field.latitude ∨ falsyOptQ field.longitude then
      (.error .valueError, db0, model0)
    else
      let model1 :=
        train_health_model fit (get_field_history db0 field_id today 30) model0
      match parse field.boundary with
      | none => (.error .valueError, db0, model1)
      | some _coords =>
        let metrics := acquisition o1 o2 o3
        let health := determine_health_status metrics.ndvi_mean field.state
        let predicted := predict_health_trend model1 (Metrics.toDict metrics)
        let advisories := generate_state_specific_advisories field metrics
        match persistRun db0 field_id today metrics health advisories sched with
        | .failed db1 => (.error .persistError, db1, model1)
        | .ok db1 => (.ok ⟨field_id, metrics, advisories, health, predicted⟩, db1, model1)

/-- A concrete well-formed Punjab wheat field used by concrete evaluations. -/
def demoField : FieldRow :=
  ⟨1, "POLY", some 30, some 75, "Punjab", "wheat", none, none, none⟩

/-- A store holding only `demoField`. -/
def demoDB : DBState := ⟨[demoField], [], []⟩

/-- A parse function that accepts every boundary with a fixed square. -/
def demoParse : String → Option (List (ℚ × ℚ)) :=
  fun _ => some [(75, 30), (75, 31), (76, 31), (75, 30)]

/-- A concrete fitting function whose models always predict 0.2. -/
def demoFit : List HistEntry → TrendModel :=
  fun _ => ⟨fun _ _ _ _ _ => 0.2⟩

/-- A concrete metrics bundle (the all-sources-failed defaults). -/
def demoMetrics : Metrics := ⟨0.5, 0.6, 0.4, 0, 1000, 25, 0, 50, 2, 0.3, 0⟩

/-- Five identical history entries. -/
def demoHist : List HistEntry :=
  List.replicate 5 ⟨0, 0.5, 25, 0, 50, 2, 0.3, "Good"⟩

/-- A second field (id 2, Gujarat rice) with no history of its own. -/
def otherField : FieldRow :=
  ⟨2, "POLY", some 22, some 72, "Gujarat", "rice", none, none, none⟩

/-- One stored sample of field 1 on day `d`. -/
def c7sample (d : ℤ) : SampleRow :=
  ⟨d.toNat + 1, 1, d, 0.5, 0.6, 0.4, 0, 25, 0, 50, 2, 0, 0.3, 1000⟩

/-- A store where field 1 has five recent samples and field 2 has none. -/
def c7db : DBState :=
  ⟨[demoField, otherField], [c7sample 1, c7sample 2, c7sample 3, c7sample 4, c7sample 5], []⟩

/-- First run of the shared analyzer: field 1, which has 5 history samples. -/
def c7run1 : Except AnalysisErr AnalysisResult × DBState × Option TrendModel :=
  analyze_field demoParse demoFit .failure .failure .failure
    ⟨true, true, true⟩ c7db none 1 6

/-- Second run of the same analyzer instance: field 2, which has no history,
starting from the store and model state the first run left. -/
def c7run2 : Except AnalysisErr AnalysisResult × DBState × Option TrendModel :=
  analyze_field demoParse demoFit .failure .failure .failure
    ⟨true, true, true⟩ c7run1.2.1 c7run1.2.2 2 6

/-- The pest threshold of every region profile, and the 0.5 default used for
unknown region keys, lies in the interval [0.3, 0.7]. -/
lemma pestThresholdOf_mem (s : String) :
    0.3 ≤ pestThresholdOf s ∧ pestThresholdOf s ≤ 0.7 := by
  unfold pestThresholdOf state_specific_data
  split_ifs <;> norm_num [gujaratData, maharashtraData, rajasthanData, punjabData]

/-- C2: for every vegetation-index value and region key the classifier returns
exactly one of Excellent/Good/Moderate/Poor, by first-match evaluation of
`x > 0.7`, then `x >` the region's pest threshold (0.5 when the region key is
not in the registry), then `x > 0.3`, else Poor. -/
theorem health_classifier_first_match (x : ℚ) (s : String) :
    (determine_health_status x s = "Excellent" ∨ determine_health_status x s = "Good" ∨
      determine_health_status x s = "Moderate" ∨ determine_health_status x s = "Poor") ∧
    (determine_health_status x s = "Excellent" ↔ x > 0.7) ∧
    (determine_health_status x s = "Good" ↔ ¬x > 0.7 ∧ x > pestThresholdOf s) ∧
    (determine_health_status x s = "Moderate" ↔
      ¬x > 0.7 ∧ ¬x > pestThresholdOf s ∧ x > 0.3) ∧
    (determine_health_status x s = "Poor" ↔
      ¬x > 0.7 ∧ ¬x > pestThresholdOf s ∧ ¬x > 0.3) ∧
    (state_specific_data s = none → pestThresholdOf s = 0.5) := by
  have hreg : state_specific_data s = none → pestThresholdOf s = 0.5 := by
    intro h; simp [pestThresholdOf, h]
  unfold determine_health_status
  split_ifs with h1 h2 h3
  · exact ⟨by simp, by simp [h1], by simp [h1], by simp [h1], by simp [h1], hreg⟩
  · exact ⟨by simp, by simp [h1], by simp [h1, h2], by simp [h2], by simp [h2], hreg⟩
  · exact ⟨by simp, by simp [h1], by simp [h1, h2], by simp [h1, h2, h3],
      by simp [h3], hreg⟩
  · exact ⟨by simp, by simp [h1], by simp [h1, h2], by simp [h1, h2, h3],
      by simp [h1, h2, h3], hreg⟩

/-- C9: for every fixed region key the classifier is non-decreasing in the
vegetation index under Poor < Moderate < Good < Excellent; for every region
key `classify 0.75 = Excellent` and `classify 0.05 = Poor`; and every pest
threshold, the 0.5 default included, lies between 0.3 and 0.7. -/
theorem health_classifier_monotone (s : String) :
    (∀ x y : ℚ, x ≤ y →
      healthRank (determine_health_status x s) ≤ healthRank (determine_health_status y s)) ∧
    determine_health_status 0.75 s = "Excellent" ∧
    determine_health_status 0.05 s = "Poor" ∧
    0.3 ≤ pestThresholdOf s ∧ pestThresholdOf s ≤ 0.7 := by
  obtain ⟨hlo, hhi⟩ := pestThresholdOf_mem s
  refine ⟨?_, ?_, ?_, hlo, hhi⟩
  · intro x y hxy
    unfold determine_health_status
    split_ifs <;> simp [healthRank] <;> linarith
  · unfold determine_health_status
    norm_num
  · unfold determine_health_status
    rw [if_neg (by linarith), if_neg (by linarith), if_neg (by norm_num)]

/-- Witness for `health_classifier_monotone` at region "Punjab" and the
concrete pair 0.2 ≤ 0.6. -/
theorem health_classifier_monotone_witness :
    (0.2 : ℚ) ≤ 0.6 ∧
      healthRank (determine_health_status 0.2 "Punjab") ≤
        healthRank (determine_health_status 0.6 "Punjab") :=
  ⟨by norm_num, (health_classifier_monotone "Punjab").1 0.2 0.6 (by norm_num)⟩

/-- C1: each acquisition fetch is total on every source outcome; a raised
exception, timeout or malformed response (the `failure` outcome) yields
exactly the documented neutral defaults, and each component of the fused
bundle is determined by its own source's outcome alone, so a failure of one
source does not alter the result obtained from the other two. -/
theorem acquisition_fallback_independent :
    fetch_ndvi_data .failure =
      ⟨0.5, 0.6, 0.4, 0, 1000⟩ ∧
    fetch_soil_moisture .failure = 0.3 ∧
    fetch_weather_data .failure = ⟨25.0, 0.0, 50.0, 2.0⟩ ∧
    ∀ o1 o2 o3,
      ((acquisition o1 o2 o3).ndvi_mean = (fetch_ndvi_data o1).ndvi_mean ∧
       (acquisition o1 o2 o3).ndvi_max = (fetch_ndvi_data o1).ndvi_max ∧
       (acquisition o1 o2 o3).ndvi_min = (fetch_ndvi_data o1).ndvi_min ∧
       (acquisition o1 o2 o3).cloud_coverage = (fetch_ndvi_data o1).cloud_coverage ∧
       (acquisition o1 o2 o3).valid_pixels = (fetch_ndvi_data o1).valid_pixels) ∧
      (acquisition o1 o2 o3).soil_moisture_est = fetch_soil_moisture o2 ∧
      ((acquisition o1 o2 o3).temp_mean = (fetch_weather_data o3).temp_mean ∧
       (acquisition o1 o2 o3).rainfall_total = (fetch_weather_data o3).rainfall_total ∧
       (acquisition o1 o2 o3).humidity_mean = (fetch_weather_data o3).humidity_mean ∧
       (acquisition o1 o2 o3).wind_speed_mean = (fetch_weather_data o3).wind_speed_mean) :=
  ⟨rfl, rfl, rfl, fun _ _ _ =>
    ⟨⟨rfl, rfl, rfl, rfl, rfl⟩, rfl, rfl, rfl, rfl, rfl⟩⟩

/-- C3: with no trained model the prediction is the bundle's raw
vegetation-index mean, unchanged; with a trained model the prediction lies in
[0.1, 0.95] for every metrics dictionary, features missing or not; and with
fewer than 5 history samples `train_health_model` trains nothing, returning
its current model unchanged. -/
theorem trend_predictor_passthrough_clamped (m : Metrics) (md : TrendModel)
    (d : String → Option ℚ) (fit : List HistEntry → TrendModel)
    (history : List HistEntry) (current : Option TrendModel) :
    predict_health_trend none (Metrics.toDict m) = m.ndvi_mean ∧
    (0.1 ≤ predict_health_trend (some md) d ∧
      predict_health_trend (some md) d ≤ 0.95) ∧
    (history.length < 5 → train_health_model fit history current = current) := by
  refine ⟨rfl, ⟨?_, ?_⟩, fun h => by simp [train_health_model, h]⟩
  · simp only [predict_health_trend, clip]
    split_ifs <;> linarith
  · simp only [predict_health_trend, clip]
    split_ifs <;> linarith

/-- Witness for `trend_predictor_passthrough_clamped` at an empty history. -/
theorem trend_predictor_witness :
    ([] : List HistEntry).length < 5 ∧
      train_health_model (fun _ => ⟨fun _ _ _ _ _ => 0⟩) [] none = none :=
  ⟨by norm_num,
    (trend_predictor_passthrough_clamped ⟨0.5, 0.6, 0.4, 0, 1000, 25, 0, 50, 2, 0.3, 0⟩
      ⟨fun _ _ _ _ _ => 7⟩ (fun _ => none) (fun _ => ⟨fun _ _ _ _ _ => 0⟩) [] none).2.2
      (by norm_num)⟩

/-- `flatMap` over a conditional singleton is `filter` then `map`. -/
lemma flatMap_ite_singleton {α β : Type} (l : List α) (p : α → Bool) (f : α → β) :
    (l.flatMap fun a => if p a then [f a] else []) = (l.filter p).map f := by
  induction l with
  | nil => rfl
  | cons a l ih =>
    by_cases h : p a <;> simp [List.filter_cons, h, ih]

/-- "Outside the closed interval" stated as an implication versus as a
disjunction. -/
lemma le_imp_lt_iff_lt_or_lt {a lo hi : ℚ} :
    (lo ≤ a → hi < a) ↔ (a < lo ∨ hi < a) := by
  constructor
  · intro h
    rcases lt_or_le a lo with h1 | h1
    · exact Or.inl h1
    · exact Or.inr (h h1)
  · rintro (h1 | h1) h2
    · exact absurd h2 (not_le.mpr h1)
    · exact h1

/-- C4: the disease loop emits, in order, exactly one advisory per disease
whose risk flag is set; the risk flag is set iff at least one configured
condition holds (index below threshold, humidity above threshold, temperature
outside range, rainfall above threshold, or soil moisture below threshold;
absent conditions are not evaluated); the advisory's text is the region's
template formatted with the disease name, and its level is critical exactly
when the identifier contains "threshold" case-insensitively, else warning. -/
theorem disease_advisory_iff (sd : StateData) (m : Metrics) (c : DiseaseCond)
    (name : String) :
    diseaseAdvisories sd m =
      ((sd.diseases.filter fun dc => diseaseRisk dc.2 m).map
        fun dc => mkDiseaseAdvisory sd dc.1) ∧
    (diseaseRisk c m = true ↔ DiseaseRiskSpec c m) ∧
    mkDiseaseAdvisory sd name =
      ⟨if strContains name.toLower "threshold" then "critical" else "warning",
       pyFormat sd.advisory_base name⟩ := by
  refine ⟨flatMap_ite_singleton _ _ _, ?_, rfl⟩
  obtain ⟨n, h, t, r, s⟩ := c
  cases n <;> cases h <;> cases t <;> cases r <;> cases s <;>
    simp [diseaseRisk, DiseaseRiskSpec, not_and_or, or_assoc, le_imp_lt_iff_lt_or_lt]

/-- C5: whenever the soil-moisture estimate lies outside [0, 1] or the mean
temperature lies outside [0, 50], the advisory list contains the critical
"check sensors" advisory, for every field profile and regardless of every
other metric value; in particular a soil-moisture estimate of 2.0 always
yields it. -/
theorem sensor_check_advisory (field : FieldRow) (m : Metrics) :
    (m.soil_moisture_est < 0 ∨ 1 < m.soil_moisture_est ∨
        m.temp_mean < 0 ∨ 50 < m.temp_mean →
      checkSensorsAdv ∈ generate_state_specific_advisories field m) ∧
    (m.soil_moisture_est = 2 →
      checkSensorsAdv ∈ generate_state_specific_advisories field m) := by
  have main : m.soil_moisture_est < 0 ∨ 1 < m.soil_moisture_est ∨
      m.temp_mean < 0 ∨ 50 < m.temp_mean →
      checkSensorsAdv ∈ generate_state_specific_advisories field m := by
    intro h
    have hbad : ¬(0 ≤ m.soil_moisture_est ∧ m.soil_moisture_est ≤ 1 ∧
        0 ≤ m.temp_mean ∧ m.temp_mean ≤ 50) := by
      rcases h with h | h | h | h <;> intro hc <;>
        rcases hc with ⟨h1, h2, h3, h4⟩ <;> linarith
    simp [generate_state_specific_advisories, generalAdvisories, hbad]
  exact ⟨main, fun h2 => main (Or.inr (Or.inl (by rw [h2]; norm_num)))⟩

/-- Witness for `sensor_check_advisory`: a Punjab wheat field with a
soil-moisture estimate of exactly 2.0. -/
theorem sensor_check_advisory_witness :
    (2 : ℚ) = 2 ∧
      checkSensorsAdv ∈ generate_state_specific_advisories
        ⟨1, "b", some 1, some 1, "Punjab", "wheat", none, none, none⟩
        ⟨0.5, 0.6, 0.4, 0, 1000, 25, 0, 50, 2, 2, 0⟩ :=
  ⟨rfl, (sensor_check_advisory
      ⟨1, "b", some 1, some 1, "Punjab", "wheat", none, none, none⟩
      ⟨0.5, 0.6, 0.4, 0, 1000, 25, 0, 50, 2, 2, 0⟩).2 rfl⟩

/-- C6 counterexample: with the sample and field-cache commits succeeding and
the advisory commit failing, `analyze_field` surfaces the failure while the
store still holds the MetricSample written by the failed run — the run's
earlier writes are not rolled back, contradicting the claimed atomicity. -/
theorem persistence_not_atomic_counterexample :
    (analyze_field demoParse demoFit .failure .failure .failure
        ⟨true, true, false⟩ demoDB none 1 0).1 = .error .persistError ∧
    demoDB.samples = [] ∧
    (analyze_field demoParse demoFit .failure .failure .failure
        ⟨true, true, false⟩ demoDB none 1 0).2.1.samples.length = 1 :=
  ⟨rfl, rfl, rfl⟩

/-- C6 amended: a failing commit surfaces the failure, discarding only its
own pending writes; what was committed earlier in the run stays persisted
(the sample if the field-cache commit fails; the sample and the field-cache
update if the advisory commit fails). Advisory rows are written only by the
last commit, so a failed run never persists an advisory: no advisory is left
referring to a sample whose write failed. -/
theorem persistence_prefix_commits (db0 : DBState) (field_id : ℕ) (today : ℤ)
    (m : Metrics) (health : String) (advisories : List AdvisoryMsg)
    (sched : CommitSched) :
    persistRun db0 field_id today m health advisories sched =
      (if ¬sched.commitSample then .failed db0
       else if ¬sched.commitField then
        .failed { db0 with samples := db0.samples ++ [mkSampleRow db0 field_id today m] }
       else if ¬sched.commitAdvisories then
        .failed (updateFieldCache
          { db0 with samples := db0.samples ++ [mkSampleRow db0 field_id today m] }
          field_id m health)
       else
        .ok { updateFieldCache
                { db0 with samples := db0.samples ++ [mkSampleRow db0 field_id today m] }
                field_id m health with
              advisories := db0.advisories ++
                advisories.map (mkAdvRow field_id (mkSampleRow db0 field_id today m).metric_id) }) ∧
    ∀ db1, persistRun db0 field_id today m health advisories sched = .failed db1 →
      db1.advisories = db0.advisories := by
  constructor
  · rfl
  · intro db1 h
    unfold persistRun at h
    rcases sched with ⟨s1, s2, s3⟩
    cases s1 <;> cases s2 <;> cases s3 <;>
      simp_all [updateFieldCache] <;> exact h ▸ rfl

/-- Witness for `persistence_prefix_commits` with the first commit failing. -/
theorem persistence_prefix_commits_witness :
    persistRun demoDB 1 0 demoMetrics "Good" [] ⟨false, true, true⟩ = .failed demoDB ∧
    demoDB.advisories = demoDB.advisories :=
  ⟨rfl, (persistence_prefix_commits demoDB 1 0 demoMetrics "Good" []
    ⟨false, true, true⟩).2 demoDB rfl⟩

/-- C7 counterexample: two consecutive runs of the shared analyzer. The first
run (field 1, five history samples) trains the single `health_model`
attribute on field 1's history; the second run (field 2, no history) skips
training without clearing it, and its prediction comes from field 1's model
(0.2, the fitted model's output) instead of the claimed pass-through of its
own bundle mean (0.5). -/
theorem model_reuse_counterexample :
    c7run2.1.toOption.map (fun r => r.predicted_ndvi) = some 0.2 ∧
    c7run2.1.toOption.map (fun r => r.metrics.ndvi_mean) = some 0.5 ∧
    c7run2.2.2 = c7run1.2.2 ∧
    c7run1.2.2 = some (demoFit (get_field_history c7db 1 6 30)) ∧
    c7run2.1.toOption.map (fun r => r.predicted_ndvi) ≠
      c7run2.1.toOption.map (fun r => r.metrics.ndvi_mean) := by
  have hclip : clip 0.2 0.1 0.95 = 0.2 := by norm_num [clip]
  have h1 : c7run2.1.toOption.map (fun r => r.predicted_ndvi) =
      some (clip 0.2 0.1 0.95) := rfl
  have h2 : c7run2.1.toOption.map (fun r => r.metrics.ndvi_mean) = some 0.5 := rfl
  refine ⟨by rw [h1, hclip], h2, rfl, rfl, ?_⟩
  rw [h1, hclip, h2]
  intro hc
  rw [Option.some.injEq] at hc
  norm_num at hc

/-- C7 amended: the trend model is a single attribute of the shared analyzer,
not per-field state. A run retrains it from its own field's current history
exactly when that history has at least 5 entries; a run whose field has fewer
keeps — and predicts with — whatever model the previous run left behind,
including one fitted on another field's history. -/
theorem model_shared_across_runs (fit : List HistEntry → TrendModel)
    (histA histB : List HistEntry) (current : Option TrendModel) :
    (5 ≤ histA.length → train_health_model fit histA current = some (fit histA)) ∧
    (histB.length < 5 →
      train_health_model fit histB (train_health_model fit histA current) =
        train_health_model fit histA current) := by
  refine ⟨fun h => ?_, fun h => ?_⟩
  · simp [train_health_model, Nat.not_lt.mpr h]
  · simp [train_health_model, h]

/-- Witness for `model_shared_across_runs`: five entries on one side, an
empty history on the other. -/
theorem model_shared_across_runs_witness :
    (5 ≤ demoHist.length ∧ ([] : List HistEntry).length < 5) ∧
    train_health_model demoFit demoHist none = some (demoFit demoHist) ∧
    train_health_model demoFit [] (train_health_model demoFit demoHist none) =
      train_health_model demoFit demoHist none :=
  ⟨⟨by decide, by decide⟩,
   (model_shared_across_runs demoFit demoHist [] none).1 (by decide),
   (model_shared_across_runs demoFit demoHist [] none).2 (by decide)⟩

/-- C8: provided every stored sample of the field is dated no later than
today (true of rows written by `analyze_field`) and the field's samples
appear in the store in date order (true after consecutive runs), the history
is exactly the field's samples whose date lies in the trailing window,
date-ascending, each annotated with a health category computed afresh from
the sample's index mean and the field's current region key. -/
theorem history_window_sorted (db : DBState) (field_id : ℕ) (today days : ℤ)
    (hPast : ∀ s ∈ db.samples, s.field_id = field_id → s.date ≤ today)
    (hOrd : db.samples.Pairwise fun a b =>
      a.field_id = field_id → b.field_id = field_id → a.date ≤ b.date) :
    get_field_history db field_id today days =
      ((db.samples.filter fun s =>
          decide (s.field_id = field_id ∧ today - days ≤ s.date ∧ s.date ≤ today)).map
        (annotateSample db field_id)) ∧
    (get_field_history db field_id today days).Pairwise (fun a b => a.date ≤ b.date) ∧
    (∀ e ∈ get_field_history db field_id today days,
      e.health_status =
        determine_health_status e.ndvi_mean (currentStateOf db field_id)) ∧
    (get_field_history db field_id today days).length =
      (db.samples.filter fun s =>
        decide (s.field_id = field_id ∧ today - days ≤ s.date ∧ s.date ≤ today)).length := by
  have hfilter :
      (db.samples.filter fun s => decide (s.field_id = field_id ∧ today - days ≤ s.date)) =
      (db.samples.filter fun s =>
        decide (s.field_id = field_id ∧ today - days ≤ s.date ∧ s.date ≤ today)) := by
    apply List.filter_congr
    intro s hs
    rw [decide_eq_decide]
    constructor
    · rintro ⟨h1, h2⟩
      exact ⟨h1, h2, hPast s hs h1⟩
    · rintro ⟨h1, h2, _⟩
      exact ⟨h1, h2⟩
  have hmain : get_field_history db field_id today days =
      ((db.samples.filter fun s =>
          decide (s.field_id = field_id ∧ today - days ≤ s.date ∧ s.date ≤ today)).map
        (annotateSample db field_id)) := by
    simp only [get_field_history]
    rw [hfilter]
  refine ⟨hmain, ?_, ?_, by rw [hmain, List.length_map]⟩
  · rw [hmain]
    refine List.Pairwise.map _ (fun a b h => h) ?_
    rw [List.pairwise_filter]
    refine hOrd.imp ?_
    intro a b h ha hb
    exact h ha.1 hb.1
  · rw [hmain]
    intro e he
    obtain ⟨s, _, rfl⟩ := List.mem_map.mp he
    rfl

/-- Witness for `history_window_sorted`: field 1 with two dated samples. -/
theorem history_window_sorted_witness :
    (∀ s ∈ c7db.samples, s.field_id = 1 → s.date ≤ 6) ∧
    (get_field_history c7db 1 6 30).Pairwise (fun a b => a.date ≤ b.date) :=
  ⟨by decide,
   (history_window_sorted c7db 1 6 30 (by decide)
     (by decide)).2.1⟩

/-- C10: provided every stored boundary that passes the truthiness guard also
parses (the repository validates GeoJSON before storing it), `analyze_field`
surfaces a `ValueError` exactly when the field is missing or its boundary,
latitude or longitude is Python-falsy; on that error nothing is persisted;
and in particular a stored latitude or longitude of exactly 0.0, or an empty
boundary string, is rejected like missing geometry. -/
theorem validation_guard_iff (parse : String → Option (List (ℚ × ℚ)))
    (fit : List HistEntry → TrendModel)
    (o1 o2 : SourceOutcome (List (Option ℚ))) (o3 : SourceOutcome WeatherRaw)
    (sched : CommitSched) (db0 : DBState) (model0 : Option TrendModel)
    (field_id : ℕ) (today : ℤ)
    (hParse : ∀ f, findField db0 field_id = some f → f.boundary ≠ "" →
      (parse f.boundary).isSome) :
    ((analyze_field parse fit o1 o2 o3 sched db0 model0 field_id today).1 =
        .error .valueError ↔
      (findField db0 field_id = none ∨
        ∃ f, findField db0 field_id = some f ∧
          (f.boundary = "" ∨ falsyOptQ f.latitude ∨ falsyOptQ f.longitude))) ∧
    ((analyze_field parse fit o1 o2 o3 sched db0 model0 field_id today).1 =
        .error .valueError →
      (analyze_field parse fit o1 o2 o3 sched db0 model0 field_id today).2.1 = db0) ∧
    (∀ f, findField db0 field_id = some f →
      (f.latitude = some 0 ∨ f.longitude = some 0 ∨ f.boundary = "") →
      (analyze_field parse fit o1 o2 o3 sched db0 model0 field_id today).1 =
        .error .valueError) := by
  have hguard : ∀ f : FieldRow,
      (f.latitude = some 0 ∨ f.longitude = some 0 ∨ f.boundary = "") →
      (f.boundary = "" ∨ falsyOptQ f.latitude ∨ falsyOptQ f.longitude) := by
    rintro f (h | h | h)
    · exact Or.inr (Or.inl (by simp [h, falsyOptQ]))
    · exact Or.inr (Or.inr (by simp [h, falsyOptQ]))
    · exact Or.inl h
  cases hf : findField db0 field_id with
  | none =>
    refine ⟨?_, ?_, ?_⟩
    · simp [analyze_field, hf]
    · intro _
      simp only [analyze_field, hf]
    · intro f hsome
      exact Option.noConfusion hsome
  | some field =>
    by_cases hg : field.boundary = "" ∨ falsyOptQ field.latitude ∨ falsyOptQ field.longitude
    · refine ⟨?_, ?_, ?_⟩
      · simp only [analyze_field, hf]
        rw [if_pos hg]
        exact ⟨fun _ => Or.inr ⟨field, rfl, hg⟩, fun _ => rfl⟩
      · simp only [analyze_field, hf]
        rw [if_pos hg]
        exact fun _ => rfl
      · intro f hsome hfg
        simp only [analyze_field, hf]
        rw [if_pos hg]
    · have hb : field.boundary ≠ "" := fun hc => hg (Or.inl hc)
      obtain ⟨coords, hcoords⟩ :=
        Option.isSome_iff_exists.mp (hParse field hf hb)
      refine ⟨?_, ?_, ?_⟩
      · simp only [analyze_field, hf]
        rw [if_neg hg, hcoords]
        constructor
        · intro h
          exfalso
          cases hout : persistRun db0 field_id today (acquisition o1 o2 o3)
              (determine_health_status (acquisition o1 o2 o3).ndvi_mean field.state)
              (generate_state_specific_advisories field (acquisition o1 o2 o3)) sched <;>
            rw [hout] at h <;> simp at h
        · rintro (h | ⟨f, hsome, hfg⟩)
          · exact Option.noConfusion h
          · obtain rfl : field = f := by injection hsome
            exact absurd hfg hg
      · simp only [analyze_field, hf]
        rw [if_neg hg, hcoords]
        intro h
        exfalso
        cases hout : persistRun db0 field_id today (acquisition o1 o2 o3)
            (determine_health_status (acquisition o1 o2 o3).ndvi_mean field.state)
            (generate_state_specific_advisories field (acquisition o1 o2 o3)) sched <;>
          rw [hout] at h <;> simp at h
      · intro f hsome hfg
        obtain rfl : field = f := by injection hsome
        exact absurd (hguard field hfg) hg

/-- Witness for `validation_guard_iff`: a field whose stored latitude is
exactly 0.0 is rejected with `ValueError`. -/
theorem validation_guard_witness :
    (analyze_field demoParse demoFit .failure .failure .failure ⟨true, true, true⟩
      ⟨[⟨1, "POLY", some 0, some 75, "Punjab", "wheat", none, none, none⟩], [], []⟩
      none 1 0).1 = .error .valueError :=
  (validation_guard_iff demoParse demoFit .failure .failure .failure
    ⟨true, true, true⟩
    ⟨[⟨1, "POLY", some 0, some 75, "Punjab", "wheat", none, none, none⟩], [], []⟩
    none 1 0 (fun _ _ _ => rfl)).2.2
    ⟨1, "POLY", some 0, some 75, "Punjab", "wheat", none, none, none⟩
    rfl (Or.inl rfl)

end KrushiBheru
